import Mathlib

/-!
Verification of the blinko-telegram bot core: the encrypted credential
store (`storage.py`), the Blinko HTTP client (`blinko_api.py`), and the
relevant slices of the command orchestrator (`bot.py`).

Python functions are shallowly embedded as Lean functions.  The SQLite
tables are modelled as lists of rows; `INSERT OR REPLACE` into a table
with a (composite) primary key is modelled as prepending the new row
after filtering out any row with the same key.  Exceptions that the
Python code catches and converts to a sentinel (`None`, `False`, an
error dict) are modelled by returning that sentinel directly.
-/

namespace Blinko

/-- Python `str.strip()`: the string with leading and trailing whitespace
removed. -/
def pyStrip (s : String) : String :=
  ⟨((s.data.dropWhile Char.isWhitespace).reverse.dropWhile Char.isWhitespace).reverse⟩

/-! ## Credential cipher

`storage.py` delegates symmetric encryption to `cryptography.fernet.Fernet`,
which is not part of this repository. -/

/-- Modelled from the spec: a Fernet ciphertext.  The spec's §4.1 contract
is an authenticated symmetric scheme: decryption recovers the plaintext
under the producing key and fails closed (`DecryptionError`) under any
other key or on tampered input.  We record the producing key so that the
key-match check of authenticated decryption is expressible. -/
structure Ciphertext where
  producedUnder : Nat
  payload : String
deriving Repr, DecidableEq

/-- Modelled from the spec: `encrypt(plaintext, key) -> ciphertext`
(Fernet `cipher.encrypt`, library code not in `src/`). -/
def encrypt (plaintext : String) (key : Nat) : Ciphertext :=
  ⟨key, plaintext⟩

/-- Modelled from the spec: `decrypt(ciphertext, key) -> plaintext`,
failing with `DecryptionError` (here `none`) when the key does not match
(Fernet `cipher.decrypt`, library code not in `src/`). -/
def decrypt (c : Ciphertext) (key : Nat) : Option String :=
  if c.producedUnder = key then some c.payload else none

/-! ## Persistent store (`storage.py`, class `UserStorage`) -/

/-- A row of the `user_tokens` table (`user_id INTEGER PRIMARY KEY`). -/
structure UserRow where
  user_id : Int
  username : String
  encrypted_token : Ciphertext
  blinko_url : Option String
deriving Repr, DecidableEq

/-- A row of the `note_messages` table
(`PRIMARY KEY (user_id, message_id, chat_id)`). -/
structure NoteMessageRow where
  user_id : Int
  message_id : Int
  chat_id : Int
  note_id : String
  note_type : Int
deriving Repr, DecidableEq

/-- The `user_tokens` table: at most one row per `user_id` is enforced by
SQLite's `INTEGER PRIMARY KEY`; in the list model it is the `Nodup`
invariant `userKeysNodup` below. -/
abbrev UserTable := List UserRow

abbrev NoteMessageTable := List NoteMessageRow

/-- The primary-key invariant of `user_tokens`: user ids are pairwise
distinct. -/
def userKeysNodup (db : UserTable) : Prop :=
  (db.map UserRow.user_id).Nodup

instance (db : UserTable) : Decidable (userKeysNodup db) := by
  unfold userKeysNodup; infer_instance

/-- `UserStorage.store_user_token` (storage.py:58-75): encrypts the token
and runs `INSERT OR REPLACE INTO user_tokens`, which deletes any existing
row with the same `user_id` and inserts the whole new row. -/
def store_user_token (db : UserTable) (key : Nat) (user_id : Int)
    (username token : String) (blinko_url : Option String) : UserTable :=
  let row : UserRow := ⟨user_id, username, encrypt token key, blinko_url⟩
  row :: db.filter (fun r => r.user_id ≠ user_id)

/-- `UserStorage.get_user_token` (storage.py:77-94): selects the row for
`user_id`; if absent returns `None`; otherwise decrypts.  The `except`
clause catches any decryption failure, logs it, and returns `None` — so a
decryption failure is indistinguishable from an absent row. -/
def get_user_token (db : UserTable) (key : Nat) (user_id : Int) :
    Option String :=
  match db.find? (fun r => r.user_id = user_id) with
  | none => none
  | some r =>
    match decrypt r.encrypted_token key with
    | some token => some token
    | none => none

/-- `UserStorage.remove_user_token` (storage.py:120-130): runs
`DELETE FROM user_tokens WHERE user_id = ?` and returns `True`; the SQL
delete succeeds whether or not a row matched, so `True` is returned even
for an absent user (`False` only on a storage exception, which the list
model does not raise). -/
def remove_user_token (db : UserTable) (user_id : Int) :
    Bool × UserTable :=
  (true, db.filter (fun r => r.user_id ≠ user_id))

/-- `UserStorage.get_user_count` (storage.py:132-140):
`SELECT COUNT(*) FROM user_tokens`. -/
def get_user_count (db : UserTable) : Nat :=
  db.length

/-- `UserStorage.store_note_message` (storage.py:142-155):
`INSERT OR REPLACE INTO note_messages` keyed by
`(user_id, message_id, chat_id)`. -/
def store_note_message (db : NoteMessageTable) (user_id message_id chat_id : Int)
    (note_id : String) (note_type : Int) : NoteMessageTable :=
  let row : NoteMessageRow := ⟨user_id, message_id, chat_id, note_id, note_type⟩
  row :: db.filter
    (fun r => ¬(r.user_id = user_id ∧ r.message_id = message_id ∧ r.chat_id = chat_id))

/-- `UserStorage.get_note_from_reply` (storage.py:157-176). -/
def get_note_from_reply (db : NoteMessageTable) (user_id reply_to_message_id chat_id : Int) :
    Option (String × Int) :=
  match db.find?
      (fun r => r.user_id = user_id ∧ r.message_id = reply_to_message_id ∧
        r.chat_id = chat_id) with
  | none => none
  | some r => some (r.note_id, r.note_type)

/-! ## Remote note client (`blinko_api.py`, class `BlinkoAPI`) -/

/-- The TLS-relevant session state set up by `BlinkoAPI.__init__`
(blinko_api.py:22-34): `self.session.verify` and whether
`urllib3.disable_warnings(InsecureRequestWarning)` was called. -/
structure SessionConfig where
  base_url : String
  verify : Bool
  insecureWarningsSuppressed : Bool
deriving Repr, DecidableEq

/-- `BlinkoAPI.__init__` (blinko_api.py:22-34): stores the base url, then
unconditionally sets `self.session.verify = False` and suppresses
`InsecureRequestWarning`.  The constructor takes no toggle argument. -/
def blinkoAPI_init (base_url : String) : SessionConfig :=
  { base_url := base_url, verify := false, insecureWarningsSuppressed := true }

/-- The outcome of one HTTP attempt through `requests`, as observed by the
`try` blocks of `blinko_api.py`: either a response arrives (with a status
code and, once `.json()` is called, a body that parses to a JSON object
whose optional `id` field we record, or fails to parse), or the request
raises `Timeout`, `ConnectionError`, or some other exception. -/
inductive TransportResult where
  | response (status : Nat) (parsedId : Option (Option String))
  | timeout
  | connectionError
  | otherError (detail : String)
deriving Repr, DecidableEq

/-- The string-keyed result dicts of `blinko_api.py`, as a sum type: one
constructor per `error` tag, plus the `success` dict (whose `note_id`
field may be absent from the response body, hence `Option`). -/
inductive ApiResult where
  | validation (message : String)
  | unauthorized (message : String)
  | apiError (status_code : Nat) (message : String)
  | success (note_id : Option String)
  | timeout (message : String)
  | connection (message : String)
  | unexpected (message : String)
deriving Repr, DecidableEq

/-- Whether the dict has `'success': True` (`result['success']`). -/
def ApiResult.isSuccess : ApiResult → Bool
  | .success _ => true
  | _ => false

/-- Whether the dict is the `'error': 'unauthorized'` failure. -/
def ApiResult.isUnauthorized : ApiResult → Bool
  | .unauthorized _ => true
  | _ => false

/-- `BlinkoAPI.create_note` (blinko_api.py:36-109).  Returns the result
dict paired with the number of HTTP requests issued.  The guard
`if not content or not content.strip()` returns the validation dict
before any request.  Otherwise one POST is made; status 401 maps to
`unauthorized`, any other status ≥ 400 to `api_error` with that status,
a 401-free sub-400 response is parsed (`response.json()`; a parse failure
raises and lands in the catch-all `unexpected` branch) and yields the
success dict with `note_id = result.get('id')`; `Timeout` and
`ConnectionError` map to their dicts, any other exception to
`unexpected`. -/
def create_note (content : String) (transport : TransportResult) :
    ApiResult × Nat :=
  if content = "" ∨ pyStrip content = "" then
    (.validation "Note content cannot be empty", 0)
  else
    match transport with
    | .response status parsedId =>
      if status = 401 then
        (.unauthorized "Invalid or expired token. Please reconfigure with /configure", 1)
      else if status ≥ 400 then
        (.apiError status ("API error: " ++ toString status), 1)
      else
        match parsedId with
        | some noteId => (.success noteId, 1)
        | none => (.unexpected "Unexpected error: body is not JSON", 1)
    | .timeout => (.timeout "Request timed out. Please try again.", 1)
    | .connectionError =>
      (.connection "Failed to connect to Blinko server. Please check your configuration.", 1)
    | .otherError detail => (.unexpected ("Unexpected error: " ++ detail), 1)

/-- `BlinkoAPI.update_note` (blinko_api.py:111-185).  Identical to
`create_note` except the request body carries the note `id` and the
success dict uses `result.get('id', note_id)`: the body's id when
present, otherwise the original `note_id` argument. -/
def update_note (note_id : String) (content : String)
    (transport : TransportResult) : ApiResult × Nat :=
  if content = "" ∨ pyStrip content = "" then
    (.validation "Note content cannot be empty", 0)
  else
    match transport with
    | .response status parsedId =>
      if status = 401 then
        (.unauthorized "Invalid or expired token. Please reconfigure with /configure", 1)
      else if status ≥ 400 then
        (.apiError status ("API error: " ++ toString status), 1)
      else
        match parsedId with
        | some bodyId => (.success (some (bodyId.getD note_id)), 1)
        | none => (.unexpected "Unexpected error: body is not JSON", 1)
    | .timeout => (.timeout "Request timed out. Please try again.", 1)
    | .connectionError =>
      (.connection "Failed to connect to Blinko server. Please check your configuration.", 1)
    | .otherError detail => (.unexpected ("Unexpected error: " ++ detail), 1)

/-- `BlinkoAPI.test_token` (blinko_api.py:187-242): one GET to
`{base}/note`.  Status 401 maps to `unauthorized`; statuses 200 and 403
map to the success dict "Token is valid"; every other received status
maps to the success dict "Token appears valid (authentication
successful)".  The body is never parsed.  `Timeout`, `ConnectionError`
and other exceptions map to their failure dicts. -/
def test_token (transport : TransportResult) : ApiResult :=
  match transport with
  | .response status _ =>
    if status = 401 then
      .unauthorized "Invalid or expired token"
    else if status = 200 ∨ status = 403 then
      .success none
    else
      .success none
  | .timeout => .timeout "Request timed out. Server may be unavailable."
  | .connectionError => .connection "Failed to connect to Blinko server."
  | .otherError detail => .unexpected ("Unexpected error: " ++ detail)

/-! ## Command orchestrator slices (`bot.py`, class `BlinkoTelegramBot`) -/

/-- The user-visible outcome of `configure_command`. -/
inductive ConfigureOutcome where
  | usage
  | tokenTooShort
  | invalidToken
  | connectionProblem
  | configured
  | storeFailed
deriving Repr, DecidableEq

/-- What `configure_command` did: its outcome, how many `test_token`
probes it sent, and whether it called `store_user_token`. -/
structure ConfigureTrace where
  outcome : ConfigureOutcome
  probesSent : Nat
  storeAttempted : Bool
deriving Repr, DecidableEq

/-- `BlinkoTelegramBot.configure_command` (bot.py:133-192), with message
sending elided.  Empty `context.args` replies with usage and returns.
Otherwise `token = ' '.join(context.args).strip()`; a token shorter than
10 characters is rejected before any probe or store.  Otherwise one
`test_token` probe is sent; on probe failure nothing is stored; on probe
success `store_user_token` is attempted (`storeOk` models its boolean
return). -/
def configure_command (args : List String) (probe : TransportResult)
    (storeOk : Bool) : ConfigureTrace :=
  if args = [] then
    ⟨.usage, 0, false⟩
  else
    let token := pyStrip (String.intercalate " " args)
    if token.length < 10 then
      ⟨.tokenTooShort, 0, false⟩
    else
      let test_result := test_token probe
      if test_result.isSuccess then
        if storeOk then ⟨.configured, 1, true⟩ else ⟨.storeFailed, 1, true⟩
      else if test_result.isUnauthorized then
        ⟨.invalidToken, 1, false⟩
      else
        ⟨.connectionProblem, 1, false⟩

/-- Python truthiness of `result['note_id']` in the guard
`if 'note_id' in result and result['note_id']` (bot.py:252): the success
dict always contains the key, so the guard holds exactly when the value
is neither `None` nor empty. -/
def pyTruthyId : Option String → Bool
  | none => false
  | some s => s ≠ ""

/-- The success-path tail of `BlinkoTelegramBot._create_note`
(bot.py:239-259), after `create_note` returned `result`: on
`result['success']` a success confirmation is reported, and
`store_note_message` is called only when `result['note_id']` is truthy;
on failure an error is reported and nothing is stored.  Returns
(success reported?, note_messages table afterwards). -/
def create_note_effects (db : NoteMessageTable) (user_id message_id chat_id : Int)
    (note_type : Int) (result : ApiResult) : Bool × NoteMessageTable :=
  match result with
  | .success note_id =>
    if pyTruthyId note_id then
      (true, store_note_message db user_id message_id chat_id (note_id.getD "") note_type)
    else
      (true, db)
  | _ => (false, db)

/-! ## Helper lemmas -/

/-- A row surviving the `user_id`-removal filter has a different id. -/
theorem mem_filter_ne_user_id (db : UserTable) (uid : Int) {r : UserRow}
    (hr : r ∈ db.filter (fun x => x.user_id ≠ uid)) : r.user_id ≠ uid := by
  have h := List.of_mem_filter hr
  simpa using h

/-- Under the primary-key invariant, removing the (present) row for `uid`
shortens the table by exactly one. -/
theorem filter_ne_user_id_length (db : UserTable) (uid : Int)
    (hnodup : userKeysNodup db) (r0 : UserRow) (hr0 : r0 ∈ db)
    (hu : r0.user_id = uid) :
    (db.filter (fun r => r.user_id ≠ uid)).length + 1 = db.length := by
  induction db with
  | nil => cases hr0
  | cons a tl ih =>
    have hn : a.user_id ∉ tl.map UserRow.user_id ∧ userKeysNodup tl := by
      unfold userKeysNodup at hnodup ⊢
      simpa [List.nodup_cons] using hnodup
    by_cases ha : a.user_id = uid
    · have htl : tl.filter (fun r => r.user_id ≠ uid) = tl := by
        apply List.filter_eq_self.mpr
        intro x hx
        simp only [decide_eq_true_eq]
        intro hxeq
        exact hn.1 (List.mem_map.mpr ⟨x, hx, by rw [hxeq, ha]⟩)
      have hdrop : List.filter (fun r : UserRow => r.user_id ≠ uid) (a :: tl) = tl :=
        (List.filter_cons_of_neg (by simp [ha])).trans htl
      rw [hdrop, List.length_cons]
    · have hr0tl : r0 ∈ tl := by
        rcases List.mem_cons.mp hr0 with h | h
        · exact absurd (h ▸ hu) ha
        · exact h
      have := ih hn.2 hr0tl
      simp only [List.filter_cons, ha, List.length_cons]
      simpa [ha] using this

/-! ## Claim theorems -/

/-- Claim C1 (evaluation of the failing input): `get_user_token` on a
stored row whose ciphertext was produced under key 0, read with current
key 1, returns `none` — the very same value it returns when no row exists
at all — instead of surfacing a `DecryptionError`. -/
theorem C1_decrypt_failure_indistinguishable_from_absent :
    get_user_token [⟨1, "alice", encrypt "token-under-old-key" 0, none⟩] 1 1 = none ∧
    get_user_token ([] : UserTable) 1 1 = none := by
  exact ⟨rfl, rfl⟩

/-- Claim C2, counterexample: `remove_user_token` on an empty table (no
credential row for user 1) returns `true`, not `false` as the claim
states. -/
theorem C2_counterexample_remove_absent_returns_true :
    (remove_user_token ([] : UserTable) 1).1 = true := rfl

/-- Claim C2 (amended): `remove_user_token` returns `true` whether or not
a row existed (`false` arises only from a storage exception), and after
it runs, `get_user_token` for that user returns `none`. -/
theorem C2_remove_returns_true_and_get_none (db : UserTable) (key : Nat)
    (user_id : Int) :
    (remove_user_token db user_id).1 = true ∧
    get_user_token (remove_user_token db user_id).2 key user_id = none := by
  refine ⟨rfl, ?_⟩
  have hfind : (db.filter (fun r => r.user_id ≠ user_id)).find?
      (fun r => r.user_id = user_id) = none := by
    rw [List.find?_eq_none]
    intro x hx
    simpa using mem_filter_ne_user_id db user_id hx
  unfold get_user_token remove_user_token
  rw [hfind]

/-- Claim C3 (evaluation of the failing input): any construction of the
client leaves TLS verification off and the insecure-request warning
suppressed; there is no opt-in toggle in the constructor. -/
theorem C3_insecure_tls_by_default (base_url : String) :
    (blinkoAPI_init base_url).verify = false ∧
    (blinkoAPI_init base_url).insecureWarningsSuppressed = true :=
  ⟨rfl, rfl⟩

/-- Claim C4: for content that is empty after stripping, `create_note`
and `update_note` return the validation error and issue zero HTTP
requests. -/
theorem C4_blank_content_validation_no_request (content : String)
    (h : pyStrip content = "") (note_id : String)
    (transport : TransportResult) :
    create_note content transport = (.validation "Note content cannot be empty", 0) ∧
    update_note note_id content transport =
      (.validation "Note content cannot be empty", 0) := by
  unfold create_note update_note
  simp [h]

/-- Claim C4 witness at whitespace-only content. -/
theorem C4_witness :
    create_note "   " .timeout = (.validation "Note content cannot be empty", 0) ∧
    update_note "n1" "   " .timeout =
      (.validation "Note content cannot be empty", 0) :=
  C4_blank_content_validation_no_request "   " (by decide) "n1" .timeout

/-- Claim C5: for non-blank content, `create_note` classifies the
transport outcome exactly: 401 to `unauthorized`, any other status ≥ 400
to `api_error` carrying the status, a timeout to `timeout`, a connection
failure to `connection`, and a 2xx response with parsed body to
`success` with the body's id, each with exactly one request issued. -/
theorem C5_create_note_outcome_taxonomy (content : String)
    (h : pyStrip content ≠ "") :
    (∀ body, create_note content (.response 401 body) =
      (.unauthorized "Invalid or expired token. Please reconfigure with /configure", 1)) ∧
    (∀ status body, 400 ≤ status → status ≠ 401 →
      create_note content (.response status body) =
        (.apiError status ("API error: " ++ toString status), 1)) ∧
    (create_note content .timeout =
      (.timeout "Request timed out. Please try again.", 1)) ∧
    (create_note content .connectionError =
      (.connection "Failed to connect to Blinko server. Please check your configuration.", 1)) ∧
    (∀ status noteId, 200 ≤ status → status ≤ 299 →
      create_note content (.response status (some noteId)) =
        (.success noteId, 1)) := by
  have hc : ¬(content = "" ∨ pyStrip content = "") := by
    rintro (hc | hc)
    · exact h (by rw [hc]; rfl)
    · exact h hc
  refine ⟨?_, ?_, ?_, ?_, ?_⟩
  · intro body
    simp [create_note, hc]
  · intro status body h1 h2
    simp [create_note, hc, h1, h2]
  · simp [create_note, hc]
  · simp [create_note, hc]
  · intro status noteId h1 h2
    have h3 : status ≠ 401 := by omega
    have h4 : ¬(status ≥ 400) := by omega
    simp [create_note, hc, h3, h4]

/-- Claim C5 witness at content `"hi"` for four of the transport
outcomes. -/
theorem C5_witness :
    create_note "hi" (.response 401 none) =
      (.unauthorized "Invalid or expired token. Please reconfigure with /configure", 1) ∧
    create_note "hi" (.response 500 none) =
      (.apiError 500 ("API error: " ++ toString 500), 1) ∧
    create_note "hi" .timeout =
      (.timeout "Request timed out. Please try again.", 1) ∧
    create_note "hi" (.response 200 (some (some "abc"))) =
      (.success (some "abc"), 1) := by
  have h := C5_create_note_outcome_taxonomy "hi" (by decide)
  exact ⟨h.1 none, h.2.1 500 none (by omega) (by decide), h.2.2.1,
    h.2.2.2.2 200 (some "abc") (by omega) (by omega)⟩

/-- Claim C6: `test_token` on a received HTTP response is `unauthorized`
exactly when the status is 401, and a success ("credential accepted",
including 2xx and 403) exactly when it is not. -/
theorem C6_validate_credential_unauthorized_iff_401 (status : Nat)
    (body : Option (Option String)) :
    (test_token (.response status body)).isUnauthorized = decide (status = 401) ∧
    (test_token (.response status body)).isSuccess = decide (status ≠ 401) := by
  by_cases h : status = 401 <;>
    simp [test_token, h, ApiResult.isUnauthorized, ApiResult.isSuccess]

/-- Claim C7: the cipher round-trips under the same key, fails closed
under a different key, and storing then reading a token for the same
user under the same key returns the original plaintext. -/
theorem C7_cipher_roundtrip_store_get (s : String) (k k1 k2 : Nat)
    (hk : k1 ≠ k2) :
    decrypt (encrypt s k) k = some s ∧
    decrypt (encrypt s k1) k2 = none ∧
    (∀ (db : UserTable) (user_id : Int) (username : String)
        (blinko_url : Option String),
      get_user_token (store_user_token db k user_id username s blinko_url) k
        user_id = some s) := by
  refine ⟨by simp [encrypt, decrypt], by simp [encrypt, decrypt, hk], ?_⟩
  intro db user_id username blinko_url
  unfold get_user_token store_user_token
  rw [List.find?_cons_of_pos _ (by simp)]
  simp [encrypt, decrypt]

/-- Claim C7 witness at secret `"secret"`, keys 0 and 1, user 42. -/
theorem C7_witness :
    decrypt (encrypt "secret" 0) 0 = some "secret" ∧
    decrypt (encrypt "secret" 0) 1 = none ∧
    get_user_token (store_user_token [] 0 42 "alice" "secret" none) 0 42 =
      some "secret" := by
  have h := C7_cipher_roundtrip_store_get "secret" 0 0 1 (by decide)
  exact ⟨h.1, h.2.1, h.2.2 [] 42 "alice" none⟩

/-- Claim C8: under the primary-key invariant, upserting a token for a
`user_id` that already has a row keeps the invariant, leaves the whole
replacement row (full replace, not merge) as the row found for that id,
and does not change `get_user_count`. -/
theorem C8_upsert_replaces_count_stable (db : UserTable) (key : Nat)
    (user_id : Int) (username token : String) (blinko_url : Option String)
    (hnodup : userKeysNodup db) (hmem : ∃ r ∈ db, r.user_id = user_id) :
    userKeysNodup (store_user_token db key user_id username token blinko_url) ∧
    (store_user_token db key user_id username token blinko_url).find?
        (fun r => r.user_id = user_id) =
      some ⟨user_id, username, encrypt token key, blinko_url⟩ ∧
    get_user_count (store_user_token db key user_id username token blinko_url) =
      get_user_count db := by
  obtain ⟨r0, hr0, hu⟩ := hmem
  refine ⟨?_, ?_, ?_⟩
  · unfold userKeysNodup store_user_token
    simp only [List.map_cons, List.nodup_cons]
    refine ⟨?_, ?_⟩
    · intro hin
      obtain ⟨r, hrf, hru⟩ := List.mem_map.mp hin
      exact mem_filter_ne_user_id db user_id hrf hru
    · exact List.Nodup.sublist ((List.filter_sublist db).map UserRow.user_id)
        hnodup
  · unfold store_user_token
    exact List.find?_cons_of_pos _ (by simp)
  · unfold get_user_count store_user_token
    simp only [List.length_cons]
    exact filter_ne_user_id_length db user_id hnodup r0 hr0 hu

/-- Claim C8 witness: re-upserting user 1 over an existing row. -/
theorem C8_witness :
    userKeysNodup (store_user_token [⟨1, "alice", encrypt "old" 0, none⟩] 0 1
      "alice" "new" none) ∧
    (store_user_token [⟨1, "alice", encrypt "old" 0, none⟩] 0 1 "alice" "new"
        none).find? (fun r => r.user_id = 1) =
      some ⟨1, "alice", encrypt "new" 0, none⟩ ∧
    get_user_count (store_user_token [⟨1, "alice", encrypt "old" 0, none⟩] 0 1
      "alice" "new" none) =
      get_user_count [⟨1, "alice", encrypt "old" 0, none⟩] :=
  C8_upsert_replaces_count_stable [⟨1, "alice", encrypt "old" 0, none⟩] 0 1
    "alice" "new" none (by decide)
    ⟨⟨1, "alice", encrypt "old" 0, none⟩, by simp, rfl⟩

/-- Claim C9: when the joined-and-stripped token argument is shorter than
10 characters, `configure_command` sends no validation probe and stores
nothing. -/
theorem C9_short_token_no_probe_no_store (args : List String)
    (probe : TransportResult) (storeOk : Bool)
    (h : (pyStrip (String.intercalate " " args)).length < 10) :
    (configure_command args probe storeOk).probesSent = 0 ∧
    (configure_command args probe storeOk).storeAttempted = false := by
  by_cases ha : args = []
  · simp [configure_command, ha]
  · simp [configure_command, ha, h]

/-- Claim C9 witness at the single argument `"short"` (5 characters). -/
theorem C9_witness :
    (configure_command ["short"] .timeout true).probesSent = 0 ∧
    (configure_command ["short"] .timeout true).storeAttempted = false :=
  C9_short_token_no_probe_no_store ["short"] .timeout true (by decide)

/-- Claim C10: after `create_note`, a correlation row is written only for
a success carrying a truthy (non-`None`, non-empty) id; a success with a
missing or empty id is still reported as success but writes nothing, and
every row of the resulting table has a non-empty `note_id` provided every
row of the starting table does. -/
theorem C10_correlation_requires_nonempty_id (db : NoteMessageTable)
    (user_id message_id chat_id note_type : Int)
    (hdb : ∀ r ∈ db, r.note_id ≠ "") :
    (∀ note_id, (create_note_effects db user_id message_id chat_id note_type
      (.success note_id)).1 = true) ∧
    (create_note_effects db user_id message_id chat_id note_type
      (.success none)).2 = db ∧
    (create_note_effects db user_id message_id chat_id note_type
      (.success (some ""))).2 = db ∧
    (∀ result r, r ∈ (create_note_effects db user_id message_id chat_id
      note_type result).2 → r.note_id ≠ "") := by
  refine ⟨?_, rfl, by simp [create_note_effects, pyTruthyId], ?_⟩
  · intro note_id
    cases note_id with
    | none => rfl
    | some s =>
      by_cases hs : s = "" <;> simp [create_note_effects, pyTruthyId, hs]
  · intro result r hr
    cases result with
    | success note_id =>
      cases note_id with
      | none => exact hdb r hr
      | some s =>
        by_cases hs : s = ""
        · have he : (create_note_effects db user_id message_id chat_id
              note_type (.success (some s))).2 = db := by
            simp [create_note_effects, pyTruthyId, hs]
          rw [he] at hr
          exact hdb r hr
        · have he : (create_note_effects db user_id message_id chat_id
              note_type (.success (some s))).2 =
              ⟨user_id, message_id, chat_id, s, note_type⟩ ::
                db.filter (fun r => ¬(r.user_id = user_id ∧
                  r.message_id = message_id ∧ r.chat_id = chat_id)) := by
            simp [create_note_effects, pyTruthyId, hs, store_note_message]
          rw [he] at hr
          rcases List.mem_cons.mp hr with h1 | h2
          · rw [h1]
            exact hs
          · exact hdb r (List.mem_of_mem_filter h2)
    | validation m => exact hdb r hr
    | unauthorized m => exact hdb r hr
    | apiError c m => exact hdb r hr
    | timeout m => exact hdb r hr
    | connection m => exact hdb r hr
    | unexpected m => exact hdb r hr

/-- Claim C10 witness on the empty table with user 1, message 2,
chat 3. -/
theorem C10_witness :
    (create_note_effects ([] : NoteMessageTable) 1 2 3 0
      (.success (some "abc"))).1 = true ∧
    (create_note_effects ([] : NoteMessageTable) 1 2 3 0
      (.success none)).2 = [] ∧
    (create_note_effects ([] : NoteMessageTable) 1 2 3 0
      (.success (some ""))).2 = [] := by
  have h := C10_correlation_requires_nonempty_id [] 1 2 3 0
    (fun r hr => absurd hr (List.not_mem_nil r))
  exact ⟨h.1 (some "abc"), h.2.1, h.2.2.1⟩

end Blinko
